import Mathlib

/-!
Shallow embedding of the task-lifecycle and scoring core of the
classMaster backend (src/main.py), together with theorems settling the
spec claims about it.

Times are modelled as rationals (seconds since an epoch); dates as
integers (day numbers).  Leaderboard `total_points` is stored as an
integer column but flows through float arithmetic in the scoring path,
so all point values are modelled as rationals.
-/

namespace ClassMaster

/-- Task status values (`'pending' | 'completed' | 'delayed'`). -/
inductive Status where
  | pending
  | completed
  | delayed
deriving DecidableEq, Repr

/-- Announcement types (`'quiz' | 'assignment' | 'general'`). -/
inductive AnnType where
  | quiz
  | assignment
  | general
deriving DecidableEq, Repr

/-- Parsing of the raw status string sent by the client; `none` models the
`Invalid status` 400 branch (`if new_status not in [...]`). -/
def statusOfString (s : String) : Option Status :=
  if s = "pending" then some .pending
  else if s = "completed" then some .completed
  else if s = "delayed" then some .delayed
  else none

/-- One `Leaderboard` row: `(student_id, course_code, total_points)`. -/
structure LBEntry where
  student_id : Nat
  course_code : String
  total_points : ℚ
deriving DecidableEq, Repr

/-! ## Scoring engine (src/main.py, `calculate_assignment_points`,
`calculate_competitive_bonus`, `update_leaderboard_points`) -/

/-- The `for student in students: if student['student_id'] == student_id:
current_student_points = student['total_points']; break` loop: the first
matching row's points, defaulting to `0` when no row matches. -/
def findCurrentPoints (student_id : Nat) : List (Nat × ℚ) → ℚ
  | [] => 0
  | (i, p) :: rest => if i = student_id then p else findCurrentPoints student_id rest

/-- `[student['total_points'] for student in students if student['student_id']
!= student_id]` followed by `all_points.append(new_total)`. -/
def allPoints (student_id : Nat) (students : List (Nat × ℚ)) (new_total : ℚ) : List ℚ :=
  (students.filter (fun s => s.1 ≠ student_id)).map (fun s => s.2) ++ [new_total]

/-- Python's stable `sort(reverse=True)`: a stable descending sort.
`List.insertionSort (· ≥ ·)` is stable and sorts descending. -/
def sortDesc (l : List ℚ) : List ℚ :=
  l.insertionSort (fun a b => a ≥ b)

/-- `all_points.index(new_total) + 1`: Python `list.index` returns the index
of the first occurrence of the value. -/
def newRank (student_id : Nat) (students : List (Nat × ℚ)) (new_total : ℚ) : Nat :=
  (sortDesc (allPoints student_id students new_total)).indexOf new_total + 1

/-- `calculate_competitive_bonus(student_id, course_code, new_points)`:
the DB fetch of the course's leaderboard rows is passed in as `students`. -/
def calculate_competitive_bonus (student_id : Nat) (students : List (Nat × ℚ))
    (new_points : ℚ) : ℚ :=
  let current_student_points := findCurrentPoints student_id students
  if current_student_points = 0 then 0
  else
    let new_total := current_student_points + 100 + new_points
    let all_points := allPoints student_id students new_total
    let new_rank := newRank student_id students new_total
    let total_students := all_points.length
    let percentile := ((total_students : ℚ) - new_rank + 1) / total_students * 100
    if total_students = 1 then 25
    else if percentile ≥ 75 then 25
    else if percentile ≥ 50 then 15
    else 0

/-- `calculate_assignment_points(student_id, course_code, task_deadline,
completion_time)` with the leaderboard fetch passed in as `students`;
timestamps in seconds, `hours_diff = time_diff.total_seconds() / 3600`. -/
def calculate_assignment_points (student_id : Nat) (students : List (Nat × ℚ))
    (task_deadline completion_time : ℚ) : ℚ :=
  let base_points : ℚ := 100
  let hours_diff := (completion_time - task_deadline) / 3600
  let early_bonus := if hours_diff < 0 then min (|hours_diff| * 3) 72 else 0
  let late_penalty := if hours_diff > 0 then min (hours_diff * 10) 100 else 0
  let assignment_points := early_bonus - late_penalty
  let competitive_bonus := calculate_competitive_bonus student_id students assignment_points
  let final_points := base_points + assignment_points + competitive_bonus
  max final_points 0

/-- `update_leaderboard_points`: `UPDATE "Leaderboard" SET total_points =
total_points + $1 WHERE student_id = $2 AND course_code = $3` (a no-op when
no row matches). -/
def update_leaderboard_points (lb : List LBEntry) (student_id : Nat)
    (course_code : String) (points_to_add : ℚ) : List LBEntry :=
  lb.map (fun e =>
    if e.student_id = student_id ∧ e.course_code = course_code then
      { e with total_points := e.total_points + points_to_add }
    else e)

/-! ## Store model (the `"Todo"`, `"Announcement"` and `"Leaderboard"`
tables reached through `DatabasePool`) -/

/-- One `"Todo"` row. `due_date` is a DATE column (day number). -/
structure Todo where
  todo_id : Nat
  user_id : Nat
  title : String
  status : Status
  due_date : Option Int
  related_announcement : Option Nat
deriving DecidableEq, Repr

/-- One `"Announcement"` row; only the columns the task logic reads.
`deadline` is a TIMESTAMP (seconds). -/
structure Announcement where
  announcement_id : Nat
  title : String
  content : String
  type : AnnType
  deadline : Option ℚ
  course_code : Option String
  sec_number : Option Nat
deriving DecidableEq, Repr

/-- The persistent store. `next_todo_id` models the serial `todo_id`
column used when a row is inserted. -/
structure Store where
  todos : List Todo
  announcements : List Announcement
  leaderboard : List LBEntry
  next_todo_id : Nat
deriving DecidableEq, Repr

def findAnn (s : Store) (aid : Nat) : Option Announcement :=
  s.announcements.find? (fun a => a.announcement_id == aid)

/-- The `LEFT JOIN "Announcement" a ON t.related_announcement =
a.announcement_id`: `none` when the task is personal or the link dangles,
in which case every `a.*` column reads as NULL. -/
def linkedAnn (s : Store) (t : Todo) : Option Announcement :=
  t.related_announcement.bind (findAnn s)

/-- `WHERE t.user_id = $1 AND t.todo_id = $2`. -/
def findTodo (s : Store) (uid tid : Nat) : Option Todo :=
  s.todos.find? (fun t => t.user_id == uid && t.todo_id == tid)

/-- HTTP error outcomes of the task-update endpoints. -/
inductive ApiError where
  | notFound      -- 404
  | invalidStatus -- 400
  | forbidden     -- 403
  | internal      -- 500
deriving DecidableEq, Repr

/-- The `UPDATE "Todo" SET status = $1 WHERE user_id = $2 AND todo_id = $3`
statement. -/
def writeStatus (todos : List Todo) (uid tid : Nat) (st : Status) : List Todo :=
  todos.map (fun t =>
    if t.user_id == uid && t.todo_id == tid then { t with status := st } else t)

/-- `SELECT student_id, total_points FROM "Leaderboard" WHERE course_code =
$1 ORDER BY total_points DESC`. -/
def leaderboardRows (s : Store) (course : String) : List (Nat × ℚ) :=
  ((s.leaderboard.filter (fun e => e.course_code == course)).map
    (fun e => (e.student_id, e.total_points))).insertionSort (fun a b => a.2 ≥ b.2)

/-- `datetime.combine(due_date, datetime.min.time())`: the day promoted to
a timestamp at midnight. -/
def dateToMidnight (d : Int) : ℚ := (d : ℚ) * 86400

/-- Python truthiness of the joined `course_code` column: NULL and the
empty string are both falsy. -/
def truthyStr : Option String → Bool
  | none => false
  | some c => c ≠ ""

/-- Which individual store statements raise, for the student path, whose
statements auto-commit one by one (no enclosing transaction in the
source). -/
structure FailureModel where
  statusWriteFails : Bool
  awardWriteFails : Bool
deriving DecidableEq, Repr

def noFailure : FailureModel := ⟨false, false⟩

/-- Outcome of a task-update endpoint: the store state visible after the
call and either an error or the returned row (with `points_awarded` for
the student path). -/
structure StudentOutcome where
  store : Store
  result : Except ApiError (Todo × ℚ)
deriving Repr

/-- `update_student_task_status` (src/main.py): category policy, the
status write, and the scoring side effect.  The `deadline_passed`
computation in the source is dead code (never read) and is omitted.
Statements auto-commit individually: a failing leaderboard write leaves
the already-committed status write in place. -/
def update_student_task_status (s : Store) (student_id todo_id : Nat)
    (new_status_str : String) (completion_time : ℚ) (fm : FailureModel) :
    StudentOutcome :=
  match findTodo s student_id todo_id with
  | none => ⟨s, .error .notFound⟩
  | some task =>
    let current_status := task.status
    let ann := linkedAnn s task
    let announcement_type := ann.map (fun a => a.type)
    let due_date := task.due_date
    let announcement_deadline := ann.bind (fun a => a.deadline)
    let course_code := ann.bind (fun a => a.course_code)
    match statusOfString new_status_str with
    | none => ⟨s, .error .invalidStatus⟩
    | some new_status =>
      if announcement_type = some .quiz then
        ⟨s, .error .forbidden⟩
      else if announcement_type = some .assignment ∧ current_status = .completed then
        ⟨s, .error .forbidden⟩
      else if announcement_type = some .assignment ∧ new_status = .pending
          ∧ current_status = .completed then
        -- dead in the source too: subsumed by the previous branch
        ⟨s, .error .forbidden⟩
      else
        if fm.statusWriteFails then ⟨s, .error .internal⟩
        else
          let s1 : Store := { s with todos := writeStatus s.todos student_id todo_id new_status }
          let updated_record : Todo := { task with status := new_status }
          if new_status = .completed ∧ announcement_type = some .assignment
              ∧ truthyStr course_code
              ∧ (announcement_deadline.isSome ∨ due_date.isSome) then
            let task_deadline := match announcement_deadline with
              | some d => d
              | none => dateToMidnight (due_date.getD 0)
            let course := course_code.getD ""
            let points_awarded := calculate_assignment_points student_id
              (leaderboardRows s1 course) task_deadline completion_time
            if points_awarded > 0 then
              if fm.awardWriteFails then ⟨s1, .error .internal⟩
              else
                ⟨{ s1 with leaderboard := (update_leaderboard_points s1.leaderboard
                    student_id course points_awarded) },
                  .ok (updated_record, points_awarded)⟩
            else ⟨s1, .ok (updated_record, points_awarded)⟩
          else ⟨s1, .ok (updated_record, 0)⟩

/-- Outcome of the faculty task-update endpoint. -/
structure FacultyOutcome where
  store : Store
  result : Except ApiError Todo
deriving Repr

/-- `update_faculty_task_status` (src/main.py): no category gate at all;
the status write and the optional "Check" task insert run inside one
transaction (`async with conn.transaction()`), so a store failure rolls
back both and surfaces a 500. -/
def update_faculty_task_status (s : Store) (faculty_id todo_id : Nat)
    (new_status_str : String) (txnFails : Bool) : FacultyOutcome :=
  match findTodo s faculty_id todo_id with
  | none => ⟨s, .error .notFound⟩
  | some task =>
    let announcement_type := (linkedAnn s task).map (fun a => a.type)
    match statusOfString new_status_str with
    | none => ⟨s, .error .invalidStatus⟩
    | some new_status =>
      if txnFails then ⟨s, .error .internal⟩
      else
        let todos1 := writeStatus s.todos faculty_id todo_id new_status
        let updated_record : Todo := { task with status := new_status }
        if (announcement_type = some .quiz ∨ announcement_type = some .assignment)
            ∧ (new_status = .completed ∨ new_status = .delayed) then
          let check_task : Todo :=
            ⟨s.next_todo_id, faculty_id, "Check " ++ task.title, .pending, none, none⟩
          let s2 : Store := { s with
            todos := todos1 ++ [check_task],
            next_todo_id := s.next_todo_id + 1 }
          ⟨s2, .ok updated_record⟩
        else
          ⟨{ s with todos := todos1 }, .ok updated_record⟩

/-! ## Deadline sweeper (`auto_update_quiz_statuses`) -/

/-- The sweep's selection: `JOIN "Announcement" ... WHERE a.type = 'quiz'
AND t.status = 'pending' AND a.deadline < NOW()` (an inner join; a NULL
deadline compares false). -/
def isExpiredQuiz (s : Store) (now : ℚ) (t : Todo) : Bool :=
  match linkedAnn s t with
  | none => false
  | some a =>
    a.type == AnnType.quiz && t.status == Status.pending &&
      (match a.deadline with
       | none => false
       | some d => decide (d < now))

/-- One `UPDATE "Todo" SET status = 'completed' WHERE todo_id = $2 AND
user_id = $3` of the sweep loop. -/
def setCompleted (todos : List Todo) (tid uid : Nat) : List Todo :=
  todos.map (fun t =>
    if t.todo_id == tid && t.user_id == uid then { t with status := .completed } else t)

/-- `auto_update_quiz_statuses`: select the expired pending quiz tasks,
force each to completed, report how many were updated. -/
def auto_update_quiz_statuses (s : Store) (now : ℚ) : Store × Nat :=
  let expired := s.todos.filter (isExpiredQuiz s now)
  let todos1 := expired.foldl (fun acc q => setCompleted acc q.todo_id q.user_id) s.todos
  ({ s with todos := todos1 }, expired.length)

/-! ## Auxiliary definitions for the claims -/

/-- Honest lookup of a student's leaderboard row (first match), used to
state when a student has no entry versus an entry holding `0`. -/
def lookupTotal (student_id : Nat) : List (Nat × ℚ) → Option ℚ
  | [] => none
  | (i, p) :: rest => if i = student_id then some p else lookupTotal student_id rest

/-- Modelled from the spec (§4.3 step 6 wording, for comparison with the
code's `newRank`): the 1-indexed position the student's own value would
occupy if it were placed last among equal values in the stable
descending-sorted list, i.e. one more than the number of other
participants whose total is greater than or equal to the new total. -/
def newRankSpecLast (student_id : Nat) (students : List (Nat × ℚ)) (new_total : ℚ) : Nat :=
  (((students.filter (fun s => s.1 ≠ student_id)).map (fun s => s.2)).countP
    (fun p => decide (new_total ≤ p))) + 1

/-- Uniqueness of the `(todo_id, user_id)` key over the `"Todo"` rows (in
the database this is implied by the `todo_id` primary key). -/
def uniqueTaskIds (todos : List Todo) : Prop :=
  todos.Pairwise (fun a b => (a.todo_id, a.user_id) ≠ (b.todo_id, b.user_id))

/-- `hours_diff = time_diff.total_seconds() / 3600`, named for the claim
statements; timestamps in seconds. -/
def hoursDiff (task_deadline completion_time : ℚ) : ℚ :=
  (completion_time - task_deadline) / 3600

/-- The early-bonus component of `calculate_assignment_points`. -/
def earlyBonus (hours_diff : ℚ) : ℚ :=
  if hours_diff < 0 then min (|hours_diff| * 3) 72 else 0

/-- The late-penalty component of `calculate_assignment_points`. -/
def latePenalty (hours_diff : ℚ) : ℚ :=
  if hours_diff > 0 then min (hours_diff * 10) 100 else 0

/-- A store with one task (id 1, owner 10) linked to a quiz
announcement. -/
def quizStore : Store :=
  { todos := [⟨1, 10, "Quiz 1", .pending, none, some 5⟩],
    announcements := [⟨5, "Quiz 1", "content", .quiz, some 1000, some "CSE101", some 1⟩],
    leaderboard := [],
    next_todo_id := 2 }

/-- A store with one already-completed task linked to an assignment
announcement. -/
def doneAssignStore : Store :=
  { todos := [⟨1, 10, "HW 1", .completed, none, some 5⟩],
    announcements := [⟨5, "HW 1", "content", .assignment, some 1000, some "CSE101", some 1⟩],
    leaderboard := [],
    next_todo_id := 2 }

/-- A store where completing task 1 scores points: student 1's pending
task is linked to assignment announcement 5 of course CSE101 with
deadline 7200, and student 1 holds a 100-point leaderboard row. -/
def scoringStore : Store :=
  { todos := [⟨1, 1, "HW 1", .pending, none, some 5⟩],
    announcements := [⟨5, "HW 1", "content", .assignment, some 7200, some "CSE101", some 1⟩],
    leaderboard := [⟨1, "CSE101", 100⟩],
    next_todo_id := 2 }

/-- A store with one pending quiz task whose deadline (50) is past at
time 100. -/
def sweepStore : Store :=
  { todos := [⟨1, 1, "Quiz 1", .pending, none, some 5⟩],
    announcements := [⟨5, "Quiz 1", "content", .quiz, some 50, some "CSE101", some 1⟩],
    leaderboard := [],
    next_todo_id := 2 }

/-- A store with a pending faculty-owned assignment-linked task. -/
def facultyAssignStore : Store :=
  { todos := [⟨1, 10, "HW 1", .pending, none, some 5⟩],
    announcements := [⟨5, "HW 1", "content", .assignment, some 1000, some "CSE101", some 1⟩],
    leaderboard := [],
    next_todo_id := 2 }

/-- A store with a non-course-linked personal student task and a
populated leaderboard. -/
def personalStore : Store :=
  { todos := [⟨1, 1, "Groceries", .pending, none, none⟩],
    announcements := [],
    leaderboard := [⟨1, "CSE101", 100⟩],
    next_todo_id := 2 }

/-! ## Helper lemmas -/

theorem findCurrentPoints_eq_lookup (student_id : Nat) (students : List (Nat × ℚ)) :
    findCurrentPoints student_id students = (lookupTotal student_id students).getD 0 := by
  induction students with
  | nil => rfl
  | cons s rest ih =>
    obtain ⟨i, p⟩ := s
    by_cases h : i = student_id <;> simp [findCurrentPoints, lookupTotal, h, ih]

/-- In a descending-sorted list, the index of the first occurrence of a
member equals the number of strictly greater elements. -/
theorem indexOf_sorted_desc (x : ℚ) (m : List ℚ)
    (hs : List.Sorted (fun a b : ℚ => a ≥ b) m) (hx : x ∈ m) :
    m.indexOf x = m.countP (fun p => decide (x < p)) := by
  induction m with
  | nil => simp at hx
  | cons y ys ih =>
    rw [List.sorted_cons] at hs
    rcases eq_or_ne y x with rfl | hne
    · rw [List.indexOf_cons_self]
      symm
      rw [List.countP_eq_zero]
      intro a ha
      rcases List.mem_cons.mp ha with rfl | ha'
      · simp
      · simpa using not_lt.mpr (hs.1 a ha')
    · have hx' : x ∈ ys := by
        rcases List.mem_cons.mp hx with h | h
        · exact absurd h.symm hne
        · exact h
      have hyx : x < y := lt_of_le_of_ne (hs.1 x hx') hne.symm
      rw [List.indexOf_cons_ne _ hne, List.countP_cons, ih hs.2 hx']
      simp [hyx]

theorem mem_sortDesc (x : ℚ) (l : List ℚ) (h : x ∈ l) : x ∈ sortDesc l :=
  (List.Perm.mem_iff (List.perm_insertionSort _ l)).mpr h

theorem countP_sortDesc (p : ℚ → Bool) (l : List ℚ) :
    (sortDesc l).countP p = l.countP p :=
  List.Perm.countP_eq p (List.perm_insertionSort _ l)

/-- The code's rank is one plus the number of participants whose value is
strictly greater than the new total: `list.index` returns the first
occurrence, so ties resolve in the acting student's favor. -/
theorem newRank_eq_one_add_countGreater (student_id : Nat)
    (students : List (Nat × ℚ)) (new_total : ℚ) :
    newRank student_id students new_total =
      (allPoints student_id students new_total).countP
        (fun p => decide (new_total < p)) + 1 := by
  unfold newRank sortDesc
  have hmem : new_total ∈ allPoints student_id students new_total := by
    unfold allPoints
    simp
  rw [indexOf_sorted_desc new_total _ (List.sorted_insertionSort _ _)
    (mem_sortDesc _ _ hmem),
    List.Perm.countP_eq _ (List.perm_insertionSort _ _)]

/-! ## Claim C4 -/

/-- C4: for every deadline and completion time, the scoring engine's
time-based component is `early_bonus = min(|hours_diff| * 3, 72)` when
early and `late_penalty = min(hours_diff * 10, 100)` when late, both zero
exactly at the deadline, and the returned award is
`max(100 + (early_bonus - late_penalty) + competitive_bonus, 0)`, hence
never negative. -/
theorem C4_scoring_formula (student_id : Nat) (students : List (Nat × ℚ))
    (deadline completion : ℚ) :
    calculate_assignment_points student_id students deadline completion =
      max (100 + (earlyBonus (hoursDiff deadline completion) -
            latePenalty (hoursDiff deadline completion)) +
          calculate_competitive_bonus student_id students
            (earlyBonus (hoursDiff deadline completion) -
              latePenalty (hoursDiff deadline completion))) 0 ∧
    (completion = deadline →
      earlyBonus (hoursDiff deadline completion) = 0 ∧
      latePenalty (hoursDiff deadline completion) = 0) ∧
    0 ≤ calculate_assignment_points student_id students deadline completion := by
  refine ⟨rfl, ?_, le_max_right _ _⟩
  rintro rfl
  constructor <;> simp [earlyBonus, latePenalty, hoursDiff]

/-- Witness for C4 at deadline = completion = 3600. -/
theorem C4_scoring_formula_witness :
    (0 : ℚ) ≤ calculate_assignment_points 1 [] 3600 3600 ∧
    earlyBonus (hoursDiff 3600 3600) = 0 ∧ latePenalty (hoursDiff 3600 3600) = 0 :=
  ⟨(C4_scoring_formula 1 [] 3600 3600).2.2, (C4_scoring_formula 1 [] 3600 3600).2.1 rfl⟩

/-! ## Claim C5 -/

/-- C5 counterexample: with leaderboard rows `[(1, 50), (2, 150), (3,
150)]`, acting student 1 and assignment points 0, the prospective new
total is 50 + 100 + 0 = 150, tying the two other students.  Placing the
student's value last among equals would give rank 3 (percentile 33⅓,
bonus 0), but the code's `list.index` finds the first occurrence: the
computed rank is 1 and the bonus is 25. -/
theorem C5_counterexample :
    newRank 1 [(1, 50), (2, 150), (3, 150)] 150 = 1 ∧
    newRankSpecLast 1 [(1, 50), (2, 150), (3, 150)] 150 = 3 ∧
    calculate_competitive_bonus 1 [(1, 50), (2, 150), (3, 150)] 0 = 25 := by
  refine ⟨?_, ?_, ?_⟩ <;>
    norm_num [newRank, newRankSpecLast, sortDesc, allPoints, calculate_competitive_bonus,
      findCurrentPoints, List.insertionSort, List.orderedInsert, List.indexOf,
      List.findIdx, List.findIdx.go, List.countP, List.countP.go]

/-- C5 amended: ties are broken in the acting student's favor — the rank
is the position of the *first* occurrence of the new total in the
descending-sorted list, i.e. one plus the number of participants whose
value is strictly greater; `percentile = (N - rank + 1) / N * 100` where
N counts all participants including the student. -/
theorem C5_rank_first_among_ties (student_id : Nat) (students : List (Nat × ℚ))
    (new_points new_total : ℚ) (rank N : Nat)
    (hcur : findCurrentPoints student_id students ≠ 0)
    (hnt : new_total = findCurrentPoints student_id students + 100 + new_points)
    (hrank : rank = (allPoints student_id students new_total).countP
        (fun p => decide (new_total < p)) + 1)
    (hN : N = (allPoints student_id students new_total).length) :
    newRank student_id students new_total = rank ∧
    N = (students.filter (fun s => s.1 ≠ student_id)).length + 1 ∧
    calculate_competitive_bonus student_id students new_points =
      (if N = 1 then 25
       else if ((N : ℚ) - rank + 1) / N * 100 ≥ 75 then 25
       else if ((N : ℚ) - rank + 1) / N * 100 ≥ 50 then 15
       else 0) := by
  subst hnt hrank hN
  refine ⟨newRank_eq_one_add_countGreater _ _ _, by simp [allPoints], ?_⟩
  unfold calculate_competitive_bonus
  rw [if_neg hcur]
  simp only [newRank_eq_one_add_countGreater]

/-- Witness for C5 at a sole-participant leaderboard. -/
theorem C5_rank_first_among_ties_witness :
    calculate_competitive_bonus 7 [(7, 30)] 5 = 25 := by
  have h := C5_rank_first_among_ties 7 [(7, 30)] 5 135 1 1
    (by norm_num [findCurrentPoints]) (by norm_num [findCurrentPoints])
    (by norm_num [allPoints, List.countP, List.countP.go])
    (by norm_num [allPoints])
  rw [h.2.2]
  norm_num

/-! ## Claim C6 -/

/-- C6 counterexample: the sole participant of a course whose stored
total is exactly 0 receives bonus 0, not the claimed unconditional 25:
the zero-total check precedes the sole-participant rule. -/
theorem C6_counterexample :
    calculate_competitive_bonus 1 [(1, 0)] 30 = 0 ∧
    calculate_competitive_bonus 1 [(1, 0)] 30 ≠ 25 := by
  constructor <;> norm_num [calculate_competitive_bonus, findCurrentPoints]

/-- C6 amended: for a sole participant the competitive bonus is 25
regardless of the time component and of the current total, provided the
stored total is nonzero (a stored total of 0 yields bonus 0 instead). -/
theorem C6_sole_participant_bonus (student_id : Nat) (p new_points : ℚ) (hp : p ≠ 0) :
    calculate_competitive_bonus student_id [(student_id, p)] new_points = 25 := by
  unfold calculate_competitive_bonus
  simp [findCurrentPoints, hp, allPoints]

/-- Witness for C6 with a negative time component. -/
theorem C6_sole_participant_bonus_witness :
    calculate_competitive_bonus 3 [(3, 100)] (-50) = 25 :=
  C6_sole_participant_bonus 3 100 (-50) (by norm_num)

/-! ## Claim C10 -/

/-- C10: the competitive-bonus computation cannot distinguish an absent
leaderboard entry from an entry whose total is exactly 0 — in both cases
it returns 0, regardless of how the student would rank. -/
theorem C10_zero_total_zero_bonus (student_id : Nat) (students : List (Nat × ℚ))
    (new_points : ℚ)
    (h : lookupTotal student_id students = none ∨
      lookupTotal student_id students = some 0) :
    calculate_competitive_bonus student_id students new_points = 0 := by
  have hz : findCurrentPoints student_id students = 0 := by
    rw [findCurrentPoints_eq_lookup]
    rcases h with h | h <;> simp [h]
  simp [calculate_competitive_bonus, hz]

/-- Witness for C10: student 1 has no row at all. -/
theorem C10_zero_total_zero_bonus_witness :
    calculate_competitive_bonus 1 [(2, 5)] 7 = 0 :=
  C10_zero_total_zero_bonus 1 [(2, 5)] 7 (Or.inl rfl)

/-! ## Claim C1 -/

/-- C1 counterexample: the faculty task-update operation accepts a manual
status change on a quiz-category task — it answers 200 with the updated
row and persists the new status (also spawning a check task) instead of
failing with Forbidden. -/
theorem C1_counterexample :
    (update_faculty_task_status quizStore 10 1 "completed" false).result =
      .ok ⟨1, 10, "Quiz 1", .completed, none, some 5⟩ ∧
    (update_faculty_task_status quizStore 10 1 "completed" false).store.todos =
      [⟨1, 10, "Quiz 1", .completed, none, some 5⟩,
       ⟨2, 10, "Check Quiz 1", .pending, none, none⟩] :=
  ⟨rfl, rfl⟩

/-- C1 amended: only the *student* task-update operation rejects every
manual update of a quiz-category task with Forbidden and leaves the store
unchanged; the faculty operation enforces no such rule. -/
theorem C1_student_quiz_forbidden (s : Store) (sid tid : Nat) (str : String)
    (ct : ℚ) (fm : FailureModel) (task : Todo)
    (hfind : findTodo s sid tid = some task)
    (hquiz : (linkedAnn s task).map (fun a => a.type) = some .quiz)
    (hvalid : (statusOfString str).isSome) :
    (update_student_task_status s sid tid str ct fm).result = .error .forbidden ∧
    (update_student_task_status s sid tid str ct fm).store = s := by
  obtain ⟨ns, hns⟩ := Option.isSome_iff_exists.mp hvalid
  simp [update_student_task_status, hfind, hns, hquiz]

/-- Witness for C1: the quiz task of `quizStore`, requested status
`completed`, through the student operation. -/
theorem C1_student_quiz_forbidden_witness :
    (update_student_task_status quizStore 10 1 "completed" 0 noFailure).result =
      .error .forbidden ∧
    (update_student_task_status quizStore 10 1 "completed" 0 noFailure).store =
      quizStore :=
  C1_student_quiz_forbidden quizStore 10 1 "completed" 0 noFailure
    ⟨1, 10, "Quiz 1", .pending, none, some 5⟩ rfl rfl rfl

/-! ## Claim C2 -/

/-- C2 counterexample: the faculty task-update operation accepts setting
a completed assignment-category task back to `pending` — it answers 200
and persists the reverted status instead of failing with Forbidden. -/
theorem C2_counterexample :
    (update_faculty_task_status doneAssignStore 10 1 "pending" false).result =
      .ok ⟨1, 10, "HW 1", .pending, none, some 5⟩ ∧
    (update_faculty_task_status doneAssignStore 10 1 "pending" false).store.todos =
      [⟨1, 10, "HW 1", .pending, none, some 5⟩] :=
  ⟨rfl, rfl⟩

/-- C2 amended: only the *student* task-update operation freezes a
completed assignment-category task — every requested status fails with
Forbidden and the store is unchanged; the faculty operation enforces no
such rule. -/
theorem C2_student_completed_assignment_frozen (s : Store) (sid tid : Nat)
    (str : String) (ct : ℚ) (fm : FailureModel) (task : Todo)
    (hfind : findTodo s sid tid = some task)
    (hassn : (linkedAnn s task).map (fun a => a.type) = some .assignment)
    (hcur : task.status = .completed)
    (hvalid : (statusOfString str).isSome) :
    (update_student_task_status s sid tid str ct fm).result = .error .forbidden ∧
    (update_student_task_status s sid tid str ct fm).store = s := by
  obtain ⟨ns, hns⟩ := Option.isSome_iff_exists.mp hvalid
  simp [update_student_task_status, hfind, hns, hassn, hcur]

/-- Witness for C2: the completed assignment of `doneAssignStore`,
requested status `delayed`, through the student operation. -/
theorem C2_student_completed_assignment_frozen_witness :
    (update_student_task_status doneAssignStore 10 1 "delayed" 0 noFailure).result =
      .error .forbidden ∧
    (update_student_task_status doneAssignStore 10 1 "delayed" 0 noFailure).store =
      doneAssignStore :=
  C2_student_completed_assignment_frozen doneAssignStore 10 1 "delayed" 0 noFailure
    ⟨1, 10, "HW 1", .completed, none, some 5⟩ rfl rfl rfl rfl

/-! ## Claim C3 -/

/-- Shared shape lemma: in a scored student update whose leaderboard
write fails, the caller gets a single 500 error, but the already
committed status write stays: the visible store is the original one with
only the task status changed. -/
theorem student_scored_update_award_failure (s : Store) (sid tid : Nat)
    (str : String) (ct : ℚ) (task : Todo) (ns : Status)
    (hfind : findTodo s sid tid = some task)
    (hstr : statusOfString str = some ns)
    (hns : ns = .completed)
    (hassn : (linkedAnn s task).map (fun a => a.type) = some .assignment)
    (hcur : task.status ≠ .completed)
    (hcourse : truthyStr ((linkedAnn s task).bind (fun a => a.course_code)) = true)
    (hdl : ((linkedAnn s task).bind (fun a => a.deadline)).isSome ∨ task.due_date.isSome)
    (hpts : (0 : ℚ) < calculate_assignment_points sid
        (leaderboardRows { s with todos := writeStatus s.todos sid tid ns }
          (((linkedAnn s task).bind (fun a => a.course_code)).getD ""))
        (match (linkedAnn s task).bind (fun a => a.deadline) with
         | some d => d
         | none => dateToMidnight (task.due_date.getD 0)) ct) :
    (update_student_task_status s sid tid str ct ⟨false, true⟩).result =
      .error .internal ∧
    (update_student_task_status s sid tid str ct ⟨false, true⟩).store =
      { s with todos := writeStatus s.todos sid tid ns } := by
  subst hns
  simp only [update_student_task_status, hfind, hstr, hassn, hcur, hcourse, hdl, hpts]
  simp [hassn, hcur, hcourse, hdl]

/-- The award in `scoringStore` at completion time 0 is positive (it is
100 base + 6 early bonus + 25 sole-participant bonus = 131). -/
theorem scoringStore_points_pos :
    (0 : ℚ) < calculate_assignment_points 1 [(1, 100)] 7200 0 := by
  norm_num [calculate_assignment_points, calculate_competitive_bonus, findCurrentPoints,
    allPoints, newRank, sortDesc, List.insertionSort, List.orderedInsert, List.indexOf,
    List.findIdx, List.findIdx.go, lt_max_iff]

/-- C3 counterexample: completing the assignment of `scoringStore` while
the leaderboard write fails surfaces a single 500 error, yet the visible
store has the task completed and the points unrecorded — the status
write was not rolled back, and the half-applied state is visible. -/
theorem C3_counterexample :
    (update_student_task_status scoringStore 1 1 "completed" 0 ⟨false, true⟩).result =
      .error .internal ∧
    (update_student_task_status scoringStore 1 1 "completed" 0 ⟨false, true⟩).store.todos =
      [⟨1, 1, "HW 1", .completed, none, some 5⟩] ∧
    (update_student_task_status scoringStore 1 1 "completed" 0 ⟨false, true⟩).store.leaderboard =
      [⟨1, "CSE101", 100⟩] ∧
    (update_student_task_status scoringStore 1 1 "completed" 0 ⟨false, true⟩).store ≠
      scoringStore := by
  have h := student_scored_update_award_failure scoringStore 1 1 "completed" 0
    ⟨1, 1, "HW 1", .pending, none, some 5⟩ .completed rfl rfl rfl rfl (by decide) rfl
    (Or.inl rfl) (by exact scoringStore_points_pos)
  refine ⟨h.1, ?_, ?_, ?_⟩ <;> rw [h.2]
  · rfl
  · rfl
  · intro hcontr
    simp [scoringStore, writeStatus] at hcontr

/-- C3 amended: in the student path the status write and the point-award
write are *not* one transaction — if the store fails during the
leaderboard point-award write, a single 500 error is surfaced, the
points are not recorded, but the already committed status change
persists (a half-applied state is visible). -/
theorem C3_award_failure_not_rolled_back (s : Store) (sid tid : Nat)
    (str : String) (ct : ℚ) (task : Todo) (ns : Status)
    (hfind : findTodo s sid tid = some task)
    (hstr : statusOfString str = some ns)
    (hns : ns = .completed)
    (hassn : (linkedAnn s task).map (fun a => a.type) = some .assignment)
    (hcur : task.status ≠ .completed)
    (hcourse : truthyStr ((linkedAnn s task).bind (fun a => a.course_code)) = true)
    (hdl : ((linkedAnn s task).bind (fun a => a.deadline)).isSome ∨ task.due_date.isSome)
    (hpts : (0 : ℚ) < calculate_assignment_points sid
        (leaderboardRows { s with todos := writeStatus s.todos sid tid ns }
          (((linkedAnn s task).bind (fun a => a.course_code)).getD ""))
        (match (linkedAnn s task).bind (fun a => a.deadline) with
         | some d => d
         | none => dateToMidnight (task.due_date.getD 0)) ct) :
    (update_student_task_status s sid tid str ct ⟨false, true⟩).result =
      .error .internal ∧
    (update_student_task_status s sid tid str ct ⟨false, true⟩).store =
      { s with todos := writeStatus s.todos sid tid ns } ∧
    (update_student_task_status s sid tid str ct ⟨false, true⟩).store.leaderboard =
      s.leaderboard := by
  have h := student_scored_update_award_failure s sid tid str ct task ns
    hfind hstr hns hassn hcur hcourse hdl hpts
  exact ⟨h.1, h.2, by rw [h.2]⟩

/-- Witness for C3 at `scoringStore`. -/
theorem C3_award_failure_not_rolled_back_witness :
    (update_student_task_status scoringStore 1 1 "completed" 0 ⟨false, true⟩).result =
      .error .internal ∧
    (update_student_task_status scoringStore 1 1 "completed" 0 ⟨false, true⟩).store.leaderboard =
      scoringStore.leaderboard := by
  have h := C3_award_failure_not_rolled_back scoringStore 1 1 "completed" 0
    ⟨1, 1, "HW 1", .pending, none, some 5⟩ .completed rfl rfl rfl rfl (by decide) rfl
    (Or.inl rfl) (by exact scoringStore_points_pos)
  exact ⟨h.1, h.2.2⟩

/-! ## Claim C7 -/

/-- The sweep's per-row update loop is the pointwise map completing every
row whose key matches some selected row. -/
theorem foldl_setCompleted_eq_map (qs : List Todo) (acc : List Todo) :
    qs.foldl (fun a q => setCompleted a q.todo_id q.user_id) acc =
      acc.map (fun t =>
        if qs.any (fun q => t.todo_id == q.todo_id && t.user_id == q.user_id)
        then { t with status := .completed } else t) := by
  induction qs generalizing acc with
  | nil => simp
  | cons q qs ih =>
    rw [List.foldl_cons, ih]
    unfold setCompleted
    rw [List.map_map]
    refine List.map_congr_left fun t _ => ?_
    simp only [Function.comp_apply, List.any_cons]
    by_cases h : (t.todo_id == q.todo_id && t.user_id == q.user_id) = true
    · rw [if_pos h]
      by_cases h2 : (qs.any fun q' => t.todo_id == q'.todo_id && t.user_id == q'.user_id) = true
      · simp [h, h2]
      · simp [h, h2]
    · rw [if_neg h]
      simp [h]

/-- Under a unique `(todo_id, user_id)` key, a row matches some selected
expired row exactly when it is itself expired. -/
theorem any_expired_match_iff (s : Store) (now : ℚ) (hu : uniqueTaskIds s.todos)
    (t : Todo) (ht : t ∈ s.todos) :
    ((s.todos.filter (isExpiredQuiz s now)).any
        (fun q => t.todo_id == q.todo_id && t.user_id == q.user_id)) =
      isExpiredQuiz s now t := by
  by_cases hp : isExpiredQuiz s now t = true
  · rw [hp]
    exact List.any_eq_true.mpr ⟨t, List.mem_filter.mpr ⟨ht, hp⟩, by simp⟩
  · rw [Bool.not_eq_true] at hp
    rw [hp]
    rw [Bool.eq_false_iff]
    intro hany
    obtain ⟨q, hqmem, hqmatch⟩ := List.any_eq_true.mp hany
    obtain ⟨hqin, hqexp⟩ := List.mem_filter.mp hqmem
    have hsym : Symmetric (fun a b : Todo =>
        (a.todo_id, a.user_id) ≠ (b.todo_id, b.user_id)) :=
      fun _ _ h e => h e.symm
    have hids : (t.todo_id, t.user_id) = (q.todo_id, q.user_id) := by
      simp only [Bool.and_eq_true, beq_iff_eq] at hqmatch
      simp [hqmatch.1, hqmatch.2]
    have heq : t = q := by
      by_contra hne
      exact (hu.forall hsym ht hqin hne) hids
    rw [heq, hqexp] at hp
    exact Bool.true_eq_false.mp hp

/-- A status-only rewrite of the todos leaves the expiry predicate's
announcement side unchanged. -/
theorem isExpiredQuiz_todos_update (s : Store) (x : List Todo) (now : ℚ) (t : Todo) :
    isExpiredQuiz { s with todos := x } now t = isExpiredQuiz s now t := rfl

/-- C7: one sweep force-completes exactly the pending quiz-linked tasks
whose announcement deadline is strictly past, reporting their number, and
a second sweep at the same time force-completes zero additional tasks. -/
theorem C7_sweep_exact_and_idempotent (s : Store) (now : ℚ)
    (hu : uniqueTaskIds s.todos) :
    (auto_update_quiz_statuses s now).2 =
      (s.todos.filter (isExpiredQuiz s now)).length ∧
    (auto_update_quiz_statuses s now).1.todos =
      s.todos.map (fun t => if isExpiredQuiz s now t
        then { t with status := .completed } else t) ∧
    (auto_update_quiz_statuses (auto_update_quiz_statuses s now).1 now).2 = 0 := by
  have hmap : (auto_update_quiz_statuses s now).1.todos =
      s.todos.map (fun t => if isExpiredQuiz s now t
        then { t with status := .completed } else t) := by
    show (s.todos.filter (isExpiredQuiz s now)).foldl
        (fun a q => setCompleted a q.todo_id q.user_id) s.todos = _
    rw [foldl_setCompleted_eq_map]
    exact List.map_congr_left fun t ht => by rw [any_expired_match_iff s now hu t ht]
  refine ⟨rfl, hmap, ?_⟩
  show ((auto_update_quiz_statuses s now).1.todos.filter
      (isExpiredQuiz (auto_update_quiz_statuses s now).1 now)).length = 0
  rw [List.length_eq_zero]
  rw [List.filter_eq_nil_iff]
  intro a ha
  rw [hmap] at ha
  obtain ⟨t, ht, hform⟩ := List.mem_map.mp ha
  have hpred : isExpiredQuiz (auto_update_quiz_statuses s now).1 now a =
      isExpiredQuiz s now a := by
    show isExpiredQuiz { s with todos := (auto_update_quiz_statuses s now).1.todos }
        now a = _
    exact isExpiredQuiz_todos_update s _ now a
  rw [hpred]
  by_cases hp : isExpiredQuiz s now t = true
  · rw [if_pos hp] at hform
    subst hform
    unfold isExpiredQuiz
    cases linkedAnn s { t with status := Status.completed } with
    | none => simp
    | some a => simp [linkedAnn]
  · rw [Bool.not_eq_true] at hp
    rw [if_neg (by rw [hp]; exact Bool.false_ne_true)] at hform
    subst hform
    rw [hp]
    exact Bool.false_ne_true

/-- Witness for C7: one task is force-completed by the first sweep at
time 100, zero by the second. -/
theorem C7_sweep_exact_and_idempotent_witness :
    (auto_update_quiz_statuses sweepStore 100).2 = 1 ∧
    (auto_update_quiz_statuses (auto_update_quiz_statuses sweepStore 100).1 100).2 = 0 := by
  have h := C7_sweep_exact_and_idempotent sweepStore 100
    (by simp [uniqueTaskIds, sweepStore])
  refine ⟨?_, h.2.2⟩
  rw [h.1]
  decide

/-! ## Claim C8 -/

/-- The student task-update endpoint never inserts a task row: the todo
count is preserved on every path. -/
theorem student_update_preserves_todo_count (s : Store) (sid tid : Nat)
    (str : String) (ct : ℚ) (fm : FailureModel) :
    (update_student_task_status s sid tid str ct fm).store.todos.length =
      s.todos.length := by
  unfold update_student_task_status
  split
  · rfl
  split
  · rfl
  dsimp only
  split_ifs <;> simp [writeStatus]

/-- C8: an accepted faculty transition of a quiz- or assignment-category
task to completed or delayed (whatever the previous status) spawns
exactly one new task, owned by the same faculty member, titled
"Check " ++ the original title, pending, with no due date and no
announcement link; the student endpoint never spawns a task. -/
theorem C8_check_task_spawn (s : Store) (fid tid : Nat) (str : String)
    (task : Todo) (ns : Status)
    (hfind : findTodo s fid tid = some task)
    (hcat : (linkedAnn s task).map (fun a => a.type) = some .quiz ∨
      (linkedAnn s task).map (fun a => a.type) = some .assignment)
    (hstr : statusOfString str = some ns)
    (hns : ns = .completed ∨ ns = .delayed) :
    (update_faculty_task_status s fid tid str false).store.todos =
      writeStatus s.todos fid tid ns ++
        [⟨s.next_todo_id, fid, "Check " ++ task.title, .pending, none, none⟩] ∧
    (update_faculty_task_status s fid tid str false).store.todos.length =
      s.todos.length + 1 ∧
    (update_faculty_task_status s fid tid str false).result =
      .ok { task with status := ns } ∧
    (∀ (sid tid2 : Nat) (str2 : String) (ct : ℚ) (fm : FailureModel),
      (update_student_task_status s sid tid2 str2 ct fm).store.todos.length =
        s.todos.length) := by
  refine ⟨?_, ?_, ?_, fun sid tid2 str2 ct fm =>
    student_update_preserves_todo_count s sid tid2 str2 ct fm⟩ <;>
    rcases hcat with h | h <;> rcases hns with rfl | rfl <;>
    simp [update_faculty_task_status, hfind, hstr, h, writeStatus]

/-- Witness for C8: a pending faculty assignment task moved to
`delayed` spawns the pending check task. -/
theorem C8_check_task_spawn_witness :
    (update_faculty_task_status facultyAssignStore 10 1 "delayed" false).store.todos =
      writeStatus facultyAssignStore.todos 10 1 .delayed ++
        [⟨2, 10, "Check HW 1", .pending, none, none⟩] ∧
    (update_faculty_task_status facultyAssignStore 10 1 "delayed" false).store.todos.length =
      facultyAssignStore.todos.length + 1 ∧
    (update_faculty_task_status facultyAssignStore 10 1 "delayed" false).result =
      .ok ⟨1, 10, "HW 1", .delayed, none, some 5⟩ ∧
    (∀ (sid tid2 : Nat) (str2 : String) (ct : ℚ) (fm : FailureModel),
      (update_student_task_status facultyAssignStore sid tid2 str2 ct fm).store.todos.length =
        facultyAssignStore.todos.length) :=
  C8_check_task_spawn facultyAssignStore 10 1 "delayed"
    ⟨1, 10, "HW 1", .pending, none, some 5⟩ .delayed rfl (Or.inr rfl) rfl (Or.inr rfl)

/-! ## Claim C9 -/

/-- C9: the scoring engine runs only when the new status is `completed`,
the task's category is assignment, the course reference is usable and a
deadline exists; whenever that conjunction fails — in particular for a
non-course-linked personal task — no points are awarded and the
leaderboard is unchanged. -/
theorem C9_scoring_guard (s : Store) (sid tid : Nat) (str : String) (ct : ℚ)
    (task : Todo) (hfind : findTodo s sid tid = some task) :
    ((¬ (statusOfString str = some .completed ∧
        (linkedAnn s task).map (fun a => a.type) = some .assignment ∧
        truthyStr ((linkedAnn s task).bind (fun a => a.course_code)) = true ∧
        (((linkedAnn s task).bind (fun a => a.deadline)).isSome ∨
          task.due_date.isSome))) →
      (update_student_task_status s sid tid str ct noFailure).store.leaderboard =
        s.leaderboard ∧
      (∀ r pts, (update_student_task_status s sid tid str ct noFailure).result =
        .ok (r, pts) → pts = 0)) ∧
    (task.related_announcement = none →
      (update_student_task_status s sid tid str ct noFailure).store.leaderboard =
        s.leaderboard) := by
  have main : (¬ (statusOfString str = some .completed ∧
      (linkedAnn s task).map (fun a => a.type) = some .assignment ∧
      truthyStr ((linkedAnn s task).bind (fun a => a.course_code)) = true ∧
      (((linkedAnn s task).bind (fun a => a.deadline)).isSome ∨
        task.due_date.isSome))) →
      (update_student_task_status s sid tid str ct noFailure).store.leaderboard =
        s.leaderboard ∧
      (∀ r pts, (update_student_task_status s sid tid str ct noFailure).result =
        .ok (r, pts) → pts = 0) := by
    intro hnot
    unfold update_student_task_status
    rw [hfind]
    cases hstr : statusOfString str with
    | none => exact ⟨rfl, by intro r pts h; cases h⟩
    | some ns =>
      dsimp only
      split_ifs with h1 h2 h3 h4 h5 h6 h7
      · exact ⟨rfl, fun r pts h => by cases h⟩
      · exact ⟨rfl, fun r pts h => by cases h⟩
      · exact ⟨rfl, fun r pts h => by cases h⟩
      · exact ⟨rfl, fun r pts h => by cases h⟩
      · exact absurd ⟨by rw [hstr, h5.1], h5.2.1, h5.2.2.1, h5.2.2.2⟩ hnot
      · exact absurd ⟨by rw [hstr, h5.1], h5.2.1, h5.2.2.1, h5.2.2.2⟩ hnot
      · exact absurd ⟨by rw [hstr, h5.1], h5.2.1, h5.2.2.1, h5.2.2.2⟩ hnot
      · exact ⟨rfl, fun r pts h => by
          injection h with h'
          exact ((Prod.mk.injEq _ _ _ _).mp h').2.symm⟩
  refine ⟨main, fun hpers => (main ?_).1⟩
  intro hcond
  have : (linkedAnn s task).map (fun a => a.type) = none := by
    simp [linkedAnn, hpers]
  rw [this] at hcond
  cases hcond.2.1

/-- Witness for C9: completing the personal task of `personalStore`
leaves the leaderboard untouched. -/
theorem C9_scoring_guard_witness :
    (update_student_task_status personalStore 1 1 "completed" 0 noFailure).store.leaderboard =
      personalStore.leaderboard :=
  (C9_scoring_guard personalStore 1 1 "completed" 0
    ⟨1, 1, "Groceries", .pending, none, none⟩ rfl).2 rfl

end ClassMaster
